import Mathlib

/-!
A shallow embedding of the S3 delivery upload script (`src/S3.py`).

Python functions become pure Lean functions.  The observable side effects
of one run (S3 SDK calls, emitted log lines, `sys.exit`, readings of
`datetime.datetime.now()`) are made explicit: SDK calls and log lines
become a trace of events, `sys.exit` becomes an explicit exit code, and
the wall clock becomes a function from the index of the `now()` call to
the date it returns.  Log messages reproduce the Python format strings,
except that the decorative single quotes around interpolated values and
purely run-time fragments (the absolute configuration directory, the repr
of a caught exception) are elided; no claim depends on those fragments.
-/

def S3_BUCKET_NAME : String := "symphony-client-shared-atlanta-ga"

def S3_REGION : String := "us-east-1"

def CONFIG_FILE : String := "S3.ini"

def backslash : Char := '\\'

/-- One observable effect of a run: an S3 SDK call or an emitted log
line.  `logError` also records whether the Python call passed `exc_info`
(the caught exception) and `stack_info` (a captured stack trace). -/
inductive Ev
  | uploadFileCall (bucket key filename : String)
  | uploadFileobjCall (bucket key : String) (content : String)
  | logInfo (msg : String)
  | logWarning (msg : String)
  | logError (msg : String) (excInfo : Bool) (stackInfo : Bool)
deriving DecidableEq

/-- A calendar date, as carried by the result of `datetime.datetime.now()`. -/
structure PyDate where
  year : Nat
  month : Nat
  day : Nat
deriving DecidableEq

def digitChar (n : Nat) : Char := Char.ofNat (48 + n % 10)

/-- Decimal digits of `n`, most significant first (fuel-bounded so that
the kernel can evaluate it). -/
def natChars : Nat → Nat → List Char
  | 0, _ => []
  | fuel + 1, n => if n < 10 then [digitChar n] else natChars fuel (n / 10) ++ [digitChar n]

def natToChars (n : Nat) : List Char := natChars (n + 1) n

/-- Zero-pad to two digits, as `strftime` does for `%m` and `%d`. -/
def pad2 (n : Nat) : List Char := if n < 10 then '0' :: natToChars n else natToChars n

/-- Zero-pad to four digits, as `strftime` does for `%Y`. -/
def pad4 (n : Nat) : List Char :=
  (if n < 10 then ['0', '0', '0']
   else if n < 100 then ['0', '0']
   else if n < 1000 then ['0']
   else []) ++ natToChars n

/-- Model of `datetime.datetime.now().strftime(r"%Y-%m-%d")`. -/
def strftime_date (d : PyDate) : String :=
  String.mk (pad4 d.year ++ '-' :: (pad2 d.month ++ '-' :: pad2 d.day))

/-- The destination key prefix built identically by `upload` (line 328)
and `upload_dashboard` (line 284) of `S3.py`. -/
def s3_path_for (dataset : String) (d : PyDate) : String :=
  "delivery/dataset=" ++ dataset ++ "/status=staged/delivery-date=" ++ strftime_date d ++ "/"

/-- Last path component, `pathlib.Path(p).name`, under Windows rules:
both `/` and the backslash separate components (the script's hardcoded
dashboard paths are Windows paths; posix-style relative paths contain no
backslash, so they are unaffected). -/
def path_name (p : String) : String :=
  String.mk (p.data.foldl (fun acc c => if c = '/' ∨ c = backslash then [] else acc ++ [c]) [])

/-- `pathlib.Path(p).suffix`: the extension starting at the last dot of
the last component; empty when there is no dot, when the dot is the first
character of the name, or when the name ends with the dot. -/
def path_suffix (p : String) : String :=
  let n := (path_name p).data
  let r := n.reverse
  let tailRev := r.takeWhile (fun c => !(c == '.'))
  if tailRev.length = r.length then ""
  else if tailRev.length = 0 then ""
  else if tailRev.length + 1 = r.length then ""
  else String.mk ('.' :: tailRev.reverse)

/-- `pathlib.Path(p).stem`: the final component without its suffix. -/
def path_stem (p : String) : String :=
  String.mk ((path_name p).data.take ((path_name p).data.length - (path_suffix p).data.length))

/-- `str.lower()`, character-wise (kernel-evaluable, unlike
`String.toLower` which recurses on byte positions). -/
def pyLower (s : String) : String := String.mk (s.data.map Char.toLower)

/-- `is_excel_file` (line 197 of `S3.py`): case-insensitive extension
membership in `['.xlsx', '.xls']`. -/
def is_excel_file (p : String) : Bool :=
  pyLower (path_suffix p) == ".xlsx" || pyLower (path_suffix p) == ".xls"

/-- A sheet's tabular content as pandas reads it: the header (column
names) and the data rows, with cells already rendered as CSV fields. -/
structure DataFrame where
  columns : List String
  rows : List (List String)
deriving DecidableEq

/-- Model of `DataFrame.to_csv(index=...)`: the header line, then one
line per data row, each line terminated by a newline; the positional row
index column is prepended exactly when `index` is true. -/
def to_csv (df : DataFrame) (index : Bool) : String :=
  let headerCells := if index then "" :: df.columns else df.columns
  let rowCells := if index then df.rows.enum.map (fun p => toString p.1 :: p.2) else df.rows
  String.intercalate "\n"
    (String.intercalate "," headerCells :: rowCells.map (fun r => String.intercalate "," r)) ++ "\n"

structure Sheet where
  name : String
  df : DataFrame
deriving DecidableEq

/-- What a path on disk holds: a plain (non-workbook) file, or a workbook
with its sheets.  `pd.ExcelFile` succeeds exactly on workbooks. -/
inductive FileContent
  | plain
  | workbook (sheets : List Sheet)
deriving DecidableEq

/-- A regular file below the uploaded directory: its path relative to the
supplied directory (posix form, as produced by
`relative_to(...).as_posix()`) and its content. -/
structure SrcFile where
  rel : String
  content : FileContent
deriving DecidableEq

/-- Model of a single-character `str.replace(old, new)`. -/
def pyReplaceChar (old new : Char) (s : String) : String :=
  String.mk (s.data.map (fun c => if c = old then new else c))

/-- `safe_sheet_name` (line 180 of `S3.py`): the three successive
`str.replace` calls, slash then backslash then space, each to `_`. -/
def safe_name (s : String) : String :=
  pyReplaceChar ' ' '_' (pyReplaceChar backslash '_' (pyReplaceChar '/' '_' s))

/-- `full_s3_path` as computed by `upload_file_to_s3` (line 164):
`s3_path + rel.as_posix().lstrip('.').lstrip('/')`. -/
def full_s3_path_file (s3_path rel : String) : String :=
  s3_path ++ String.mk ((rel.data.dropWhile (fun c => c == '.')).dropWhile (fun c => c == '/'))

/-- `full_s3_path` as computed by `upload_csv_buffer_to_s3` (line 181). -/
def full_s3_path_sheet (s3_path original_filename sheet_name : String) : String :=
  s3_path ++ path_stem original_filename ++ "_" ++ safe_name sheet_name ++ ".csv"

/-- `upload_file_to_s3` (lines 163-176).  `putOk key = false` means the
`upload_file` SDK call raises on that key; the exception lands in the
`except` block, which logs with `exc_info` and `stack_info` and returns
normally. -/
def upload_file_to_s3 (file_path s3_path : String) (dry_run : Bool) (rel : String)
    (putOk : String → Bool) : List Ev :=
  let full := full_s3_path_file s3_path rel
  if dry_run then
    [Ev.logInfo ("Would upload " ++ file_path ++ " to " ++ full ++ ".")]
  else if putOk full then
    [Ev.uploadFileCall S3_BUCKET_NAME full file_path,
     Ev.logInfo ("Uploaded " ++ file_path ++ " to s3://" ++ S3_BUCKET_NAME ++ "/" ++ full ++ ".")]
  else
    [Ev.uploadFileCall S3_BUCKET_NAME full file_path,
     Ev.logError ("Error uploading " ++ file_path) true true]

/-- `upload_csv_buffer_to_s3` (lines 178-195); `buffer` holds the CSV
bytes written into the `BytesIO` buffer. -/
def upload_csv_buffer_to_s3 (buffer : String) (s3_path original_filename sheet_name : String)
    (dry_run : Bool) (putOk : String → Bool) : List Ev :=
  let full := full_s3_path_sheet s3_path original_filename sheet_name
  if dry_run then
    [Ev.logInfo ("Would upload sheet " ++ sheet_name ++ " from " ++ original_filename ++
      " to " ++ full ++ ".")]
  else if putOk full then
    [Ev.uploadFileobjCall S3_BUCKET_NAME full buffer,
     Ev.logInfo ("Uploaded sheet " ++ sheet_name ++ " from " ++ original_filename ++
       " to s3://" ++ S3_BUCKET_NAME ++ "/" ++ full ++ ".")]
  else
    [Ev.uploadFileobjCall S3_BUCKET_NAME full buffer,
     Ev.logError ("Error uploading sheet " ++ sheet_name ++ " from " ++ original_filename) true true]

def concatMap (f : α → List β) : List α → List β
  | [] => []
  | a :: t => f a ++ concatMap f t

/-- The body of the per-sheet loop of `process_excel_file` (lines
214-239): an empty sheet (`df.empty`, i.e. no data rows) is skipped with
a warning and no upload; otherwise the sheet is rendered with
`to_csv(index=False)` and the buffer handed to the uploader with
`original_filename = file_path.name`. -/
def process_sheet (file_path s3_path : String) (dry_run : Bool) (putOk : String → Bool)
    (sh : Sheet) : List Ev :=
  if sh.df.rows.isEmpty then
    [Ev.logWarning ("Sheet " ++ sh.name ++ " in " ++ file_path ++ " is empty. Skipping.")]
  else
    upload_csv_buffer_to_s3 (to_csv sh.df false) s3_path (path_name file_path) sh.name dry_run putOk

/-- `process_excel_file` (lines 200-241).  A `plain` content means
`pd.ExcelFile` raises (the file is not a readable workbook), landing in
the outer `except` block. -/
def process_excel_file (file_path : String) (content : FileContent) (s3_path : String)
    (dry_run : Bool) (putOk : String → Bool) : List Ev :=
  Ev.logInfo ("Processing Excel file " ++ file_path ++ " and uploading individual sheets.") ::
    match content with
    | FileContent.plain => [Ev.logError ("Error processing Excel file " ++ file_path) true true]
    | FileContent.workbook sheets =>
      if sheets.isEmpty then
        [Ev.logWarning ("No sheets found in " ++ file_path ++ ".")]
      else
        Ev.logInfo ("Found " ++ toString sheets.length ++ " sheets: " ++
            String.intercalate ", " (sheets.map Sheet.name)) ::
          concatMap (process_sheet file_path s3_path dry_run putOk) sheets

/-- A parsed `S3.ini`: sections with their key/value options.  `none` at
the `Option IniFile` call sites models a missing file. -/
abbrev IniFile := List (String × List (String × String))

/-- `config.get(section, option)`: `none` models the raised
`NoSectionError` / `NoOptionError` of `configparser`. -/
def cfg_get (cfg : IniFile) (sec opt : String) : Option String :=
  match cfg.lookup sec with
  | none => none
  | some opts => opts.lookup opt

structure S3Client where
  region_name : String
  aws_access_key_id : String
  aws_secret_access_key : String
deriving DecidableEq

/-- `get_s3_client` (lines 133-161): its log lines, plus either
`sys.exit(1)` (as `Except.error 1`, constructing no client) or the
constructed boto3 client. -/
def get_s3_client (ini : Option IniFile) : List Ev × Except Nat S3Client :=
  match ini with
  | none =>
    ([Ev.logError ("Configuration file " ++ CONFIG_FILE ++ " not found.") false false],
     Except.error 1)
  | some cfg =>
    match cfg_get cfg "AWS" "AWS_ACCESS_KEY_ID", cfg_get cfg "AWS" "AWS_SECRET_ACCESS_KEY" with
    | some k, some s =>
      if k == "" || s == "" then
        ([Ev.logError ("AWS credentials not found or incomplete in " ++ CONFIG_FILE ++
            ". Please check the file.") false false],
         Except.error 1)
      else
        ([Ev.logInfo ("Using credentials from " ++ CONFIG_FILE ++ " for S3 access.")],
         Except.ok (S3Client.mk S3_REGION k s))
    | _, _ =>
      ([Ev.logError ("Error reading " ++ CONFIG_FILE ++
          ". Ensure it has an AWS section with AWS_ACCESS_KEY_ID and AWS_SECRET_ACCESS_KEY.")
          false false],
       Except.error 1)

/-- The outcome of one CLI command run: its event trace, the exit code
when the run calls `sys.exit` (else the process exits 0), and how many
times `datetime.datetime.now()` was evaluated. -/
structure RunResult where
  events : List Ev
  exitCode : Option Nat
  nowCalls : Nat
deriving DecidableEq

/-- The directory branch of the `upload` command (lines 327-350).
`files` are the regular files found by `path.glob("**/*")`, each by its
path relative to the supplied directory; `clock i` is the date returned
by the `i`-th `datetime.datetime.now()` call of the run.  The branch
reads the clock exactly once, at line 328, before any upload.  The
thread-pool size `processes` bounds concurrency only: the set of
dispatched uploads and each per-file trace do not depend on it (the trace
lists per-file events in dispatch order; interleaving between workers is
not modelled, and no claim depends on it). -/
def upload_dir (ini : Option IniFile) (dataset dirPath : String) (files : List SrcFile)
    (processes : Nat) (dry_run : Bool) (clock : Nat → PyDate) (putOk : String → Bool) :
    RunResult :=
  let g := get_s3_client ini
  match g.2 with
  | Except.error c => ⟨g.1, some c, 0⟩
  | Except.ok _ =>
    let s3_path := s3_path_for dataset (clock 0)
    let excel_files := files.filter (fun f => is_excel_file f.rel)
    let regular_files := files.filter (fun f => !is_excel_file f.rel)
    let header :=
      [Ev.logInfo ("Uploading " ++ toString files.length ++ " files from " ++ dirPath ++
         " for " ++ dataset ++ "."),
       Ev.logInfo ("Found " ++ toString excel_files.length ++ " Excel files and " ++
         toString regular_files.length ++ " regular files.")]
    let excelTrace := concatMap
      (fun f => process_excel_file (dirPath ++ "/" ++ f.rel) f.content s3_path dry_run putOk)
      excel_files
    let regularTrace := concatMap
      (fun f => upload_file_to_s3 (dirPath ++ "/" ++ f.rel) s3_path dry_run f.rel putOk)
      regular_files
    ⟨g.1 ++ header ++ excelTrace ++ regularTrace, none, 1⟩

def dashPath1 : String :=
  "C:\\Users\\research\\OneDrive - Atlanta Convention & Visitors Bureau\\Marketing Dashboard Data\\Documents - ACVB Research\\Discover Atlanta KPI Dashboard.xlsx"

def dashPath2 : String :=
  "C:\\Users\\research\\OneDrive - Atlanta Convention & Visitors Bureau\\Marketing Dashboard Data\\Documents - ACVB Research\\Discover Atlanta - Monthly Data Report.xlsx"

/-- The hardcoded `file_mappings` of `upload_dashboard` (lines 256-267):
path, dataset, description. -/
def dashMappings : List (String × String × String) :=
  [(dashPath1, "winistry", "Discover Atlanta KPI Dashboard"),
   (dashPath2, "sparkloft", "Discover Atlanta Monthly Data Report")]

/-- One iteration of the mapping loop of `upload_dashboard` (lines
271-292).  The accumulator carries the events so far and the number of
`datetime.now()` calls made so far; the clock is read inside the loop
(line 284), after the existence check, hence once per existing file. -/
def dash_step (fs : String → Option FileContent) (dry_run : Bool) (clock : Nat → PyDate)
    (putOk : String → Bool) (acc : List Ev × Nat) (m : String × String × String) :
    List Ev × Nat :=
  let e1 := Ev.logInfo ("Processing " ++ m.2.2 ++ " for " ++ m.2.1 ++ " dataset...")
  match fs m.1 with
  | none => (acc.1 ++ [e1, Ev.logError ("File not found: " ++ m.1) false false], acc.2)
  | some content =>
    let s3_path := s3_path_for m.2.1 (clock acc.2)
    let body :=
      if is_excel_file m.1 then
        Ev.logInfo ("Processing Excel file " ++ m.1 ++ " for " ++ m.2.1 ++ " dataset.") ::
          process_excel_file m.1 content s3_path dry_run putOk
      else
        Ev.logInfo ("Uploading file " ++ m.1 ++ " for " ++ m.2.1 ++ " dataset.") ::
          upload_file_to_s3 m.1 s3_path dry_run (path_name m.1) putOk
    (acc.1 ++ e1 :: body, acc.2 + 1)

/-- `upload_dashboard` (lines 243-294).  `fs` maps a path to its content
when the file exists on disk.  `processes` is accepted (the CLI offers
the option) but the body never uses it. -/
def upload_dashboard (ini : Option IniFile) (fs : String → Option FileContent)
    (processes : Nat) (dry_run : Bool) (clock : Nat → PyDate) (putOk : String → Bool) :
    RunResult :=
  let g := get_s3_client ini
  match g.2 with
  | Except.error c => ⟨g.1, some c, 0⟩
  | Except.ok _ =>
    let r := dashMappings.foldl (dash_step fs dry_run clock putOk)
      ([Ev.logInfo ("Starting predefined dashboard file uploads...")], 0)
    ⟨g.1 ++ r.1 ++ [Ev.logInfo ("Dashboard file uploads completed.")], none, r.2⟩

/-- Keys of the S3 put calls (both SDK entry points) in a trace. -/
def putKeys : List Ev → List String
  | [] => []
  | Ev.uploadFileCall _ k _ :: t => k :: putKeys t
  | Ev.uploadFileobjCall _ k _ :: t => k :: putKeys t
  | Ev.logInfo _ :: t => putKeys t
  | Ev.logWarning _ :: t => putKeys t
  | Ev.logError _ _ _ :: t => putKeys t

def isFilePut : Ev → Bool
  | Ev.uploadFileCall _ _ _ => true
  | _ => false

def isBufPut : Ev → Bool
  | Ev.uploadFileobjCall _ _ _ => true
  | _ => false

def isPut (e : Ev) : Bool := isFilePut e || isBufPut e

def isWorkbook : FileContent → Bool
  | FileContent.workbook _ => true
  | FileContent.plain => false

/-- Number of sheets with at least one data row. -/
def nonEmptySheetCount : FileContent → Nat
  | FileContent.workbook sheets => (sheets.filter (fun s => !s.df.rows.isEmpty)).length
  | FileContent.plain => 0

/-- No two adjacent characters of the list are both `/`. -/
def noDoubleSlash : List Char → Bool
  | [] => true
  | [_] => true
  | a :: b :: t => !(a == '/' && b == '/') && noDoubleSlash (b :: t)

/-- A well-formed credentials file, used to instantiate theorems. -/
def cfgOk : IniFile :=
  [("AWS", [("AWS_ACCESS_KEY_ID", "AKIA123"), ("AWS_SECRET_ACCESS_KEY", "SECRET456")])]

/-- A sample directory, used to instantiate theorems: one plain file and
one workbook with one non-empty sheet and one empty sheet. -/
def sampleFiles : List SrcFile :=
  [⟨"report.txt", FileContent.plain⟩,
   ⟨"q.xlsx", FileContent.workbook
     [⟨"Jan", ⟨["a"], [["1"]]⟩⟩, ⟨"Feb 2024", ⟨["a"], []⟩⟩]⟩]

/-! ## Helper lemmas -/

theorem safe_name_eq_map (s : String) :
    (safe_name s).data =
      s.data.map (fun c => if c = '/' ∨ c = backslash ∨ c = ' ' then '_' else c) := by
  show ((s.data.map (fun c => if c = '/' then '_' else c)).map
        (fun c => if c = backslash then '_' else c)).map
        (fun c => if c = ' ' then '_' else c) =
      s.data.map (fun c => if c = '/' ∨ c = backslash ∨ c = ' ' then '_' else c)
  rw [List.map_map, List.map_map]
  refine List.map_congr_left (fun c _ => ?_)
  simp only [Function.comp]
  by_cases h1 : c = '/'
  · subst h1; decide
  · by_cases h2 : c = backslash
    · subst h2; decide
    · by_cases h3 : c = ' '
      · subst h3; decide
      · simp [h1, h2, h3]

theorem countP_concatMap (p : Ev → Bool) (f : α → List Ev) (l : List α) :
    (concatMap f l).countP p = (l.map (fun a => (f a).countP p)).sum := by
  induction l with
  | nil => rfl
  | cons a t ih => simp [concatMap, List.countP_append, ih]

theorem mem_concatMap {f : α → List Ev} {l : List α} {e : Ev} (a : α) (ha : a ∈ l)
    (he : e ∈ f a) : e ∈ concatMap f l := by
  induction l with
  | nil => cases ha
  | cons b t ih =>
    rcases List.mem_cons.mp ha with rfl | hmem
    · exact List.mem_append.mpr (Or.inl he)
    · exact List.mem_append.mpr (Or.inr (ih hmem))

theorem upload_dir_ok (ini : Option IniFile) (cl : S3Client)
    (h : (get_s3_client ini).2 = Except.ok cl) (dataset dirPath : String)
    (files : List SrcFile) (processes : Nat) (dry_run : Bool) (clock : Nat → PyDate)
    (putOk : String → Bool) :
    upload_dir ini dataset dirPath files processes dry_run clock putOk =
      ⟨(get_s3_client ini).1 ++
        [Ev.logInfo ("Uploading " ++ toString files.length ++ " files from " ++ dirPath ++
           " for " ++ dataset ++ "."),
         Ev.logInfo ("Found " ++ toString (files.filter (fun f => is_excel_file f.rel)).length ++
           " Excel files and " ++
           toString (files.filter (fun f => !is_excel_file f.rel)).length ++ " regular files.")] ++
        concatMap (fun f => process_excel_file (dirPath ++ "/" ++ f.rel) f.content
            (s3_path_for dataset (clock 0)) dry_run putOk)
          (files.filter (fun f => is_excel_file f.rel)) ++
        concatMap (fun f => upload_file_to_s3 (dirPath ++ "/" ++ f.rel)
            (s3_path_for dataset (clock 0)) dry_run f.rel putOk)
          (files.filter (fun f => !is_excel_file f.rel)),
       none, 1⟩ := by
  simp only [upload_dir]
  rw [h]

theorem upload_dir_err (ini : Option IniFile) (c : Nat)
    (h : (get_s3_client ini).2 = Except.error c) (dataset dirPath : String)
    (files : List SrcFile) (processes : Nat) (dry_run : Bool) (clock : Nat → PyDate)
    (putOk : String → Bool) :
    upload_dir ini dataset dirPath files processes dry_run clock putOk =
      ⟨(get_s3_client ini).1, some c, 0⟩ := by
  simp only [upload_dir]
  rw [h]

theorem upload_dashboard_ok (ini : Option IniFile) (cl : S3Client)
    (h : (get_s3_client ini).2 = Except.ok cl) (fs : String → Option FileContent)
    (processes : Nat) (dry_run : Bool) (clock : Nat → PyDate) (putOk : String → Bool) :
    upload_dashboard ini fs processes dry_run clock putOk =
      ⟨(get_s3_client ini).1 ++
        (dashMappings.foldl (dash_step fs dry_run clock putOk)
          ([Ev.logInfo ("Starting predefined dashboard file uploads...")], 0)).1 ++
        [Ev.logInfo ("Dashboard file uploads completed.")],
       none,
       (dashMappings.foldl (dash_step fs dry_run clock putOk)
          ([Ev.logInfo ("Starting predefined dashboard file uploads...")], 0)).2⟩ := by
  simp only [upload_dashboard]
  rw [h]

theorem countPut_get_s3_client (ini : Option IniFile) :
    (get_s3_client ini).1.countP isPut = 0 := by
  cases ini with
  | none => rfl
  | some cfg =>
    simp only [get_s3_client]
    cases cfg_get cfg "AWS" "AWS_ACCESS_KEY_ID" with
    | none => rfl
    | some k =>
      cases cfg_get cfg "AWS" "AWS_SECRET_ACCESS_KEY" with
      | none => rfl
      | some s => split <;> split <;> rfl

theorem countPut_process_sheet_dry (file_path s3_path : String) (putOk : String → Bool)
    (sh : Sheet) : (process_sheet file_path s3_path true putOk sh).countP isPut = 0 := by
  unfold process_sheet upload_csv_buffer_to_s3
  split <;> rfl

theorem countPut_process_excel_dry (file_path : String) (content : FileContent)
    (s3_path : String) (putOk : String → Bool) :
    (process_excel_file file_path content s3_path true putOk).countP isPut = 0 := by
  cases content with
  | plain => rfl
  | workbook sheets =>
    simp only [process_excel_file]
    rcases h : sheets.isEmpty with _ | _
    · rw [if_neg (by decide : ¬(false = true))]
      rw [List.countP_cons, List.countP_cons, countP_concatMap]
      have hz : ∀ x ∈ sheets.map
          (fun sh => (process_sheet file_path s3_path true putOk sh).countP isPut), x = 0 := by
        intro x hx
        rcases List.mem_map.mp hx with ⟨sh, _, rfl⟩
        exact countPut_process_sheet_dry file_path s3_path putOk sh
      rw [List.sum_eq_zero hz]
      rfl
    · rfl

/-! ## Claim theorems -/

/-- C9: sheet-name sanitization is idempotent: sanitizing the sanitized
form of any string yields the sanitized form. -/
theorem c9_sanitize_idempotent (s : String) : safe_name (safe_name s) = safe_name s := by
  apply String.ext
  rw [safe_name_eq_map, safe_name_eq_map, List.map_map]
  refine List.map_congr_left (fun c _ => ?_)
  simp only [Function.comp]
  by_cases h1 : c = '/'
  · subst h1; decide
  · by_cases h2 : c = backslash
    · subst h2; decide
    · by_cases h3 : c = ' '
      · subst h3; decide
      · simp [h1, h2, h3]

/-- C10: for `upload-dashboard`, the `--processes` option has no effect:
two runs differing only in the processes value produce identical results
(same uploads, same keys, same log lines), since dashboard processing is
entirely sequential and never reads the value. -/
theorem c10_dashboard_ignores_processes (ini : Option IniFile)
    (fs : String → Option FileContent) (p q : Nat) (dry_run : Bool) (clock : Nat → PyDate)
    (putOk : String → Bool) :
    upload_dashboard ini fs p dry_run clock putOk =
      upload_dashboard ini fs q dry_run clock putOk := rfl

/-- C3: with the dry-run flag set, neither uploader ever performs the
store's put call; each emits exactly one log line carrying the very
destination key (`full_s3_path_file` / `full_s3_path_sheet`) that the
non-dry-run of the same input uses for its put call, and a whole dry-run
of the `upload` directory command performs zero put calls. -/
theorem c3_dry_run_no_puts (file_path s3_path rel buffer orig sheet : String)
    (putOk : String → Bool) :
    upload_file_to_s3 file_path s3_path true rel putOk =
      [Ev.logInfo ("Would upload " ++ file_path ++ " to " ++
        full_s3_path_file s3_path rel ++ ".")]
    ∧ upload_csv_buffer_to_s3 buffer s3_path orig sheet true putOk =
      [Ev.logInfo ("Would upload sheet " ++ sheet ++ " from " ++ orig ++ " to " ++
        full_s3_path_sheet s3_path orig sheet ++ ".")]
    ∧ (upload_file_to_s3 file_path s3_path true rel putOk).countP isPut = 0
    ∧ (upload_csv_buffer_to_s3 buffer s3_path orig sheet true putOk).countP isPut = 0
    ∧ (upload_file_to_s3 file_path s3_path false rel putOk).head? =
        some (Ev.uploadFileCall S3_BUCKET_NAME (full_s3_path_file s3_path rel) file_path)
    ∧ (upload_csv_buffer_to_s3 buffer s3_path orig sheet false putOk).head? =
        some (Ev.uploadFileobjCall S3_BUCKET_NAME (full_s3_path_sheet s3_path orig sheet) buffer)
    ∧ ∀ (ini : Option IniFile) (ds dp : String) (files : List SrcFile) (pr : Nat)
        (clock : Nat → PyDate),
        (upload_dir ini ds dp files pr true clock putOk).events.countP isPut = 0 := by
  refine ⟨rfl, rfl, rfl, rfl, ?_, ?_, ?_⟩
  · simp only [upload_file_to_s3, Bool.false_eq_true, if_false]
    split <;> rfl
  · simp only [upload_csv_buffer_to_s3, Bool.false_eq_true, if_false]
    split <;> rfl
  · intro ini ds dp files pr clock
    cases hg : (get_s3_client ini).2 with
    | error c =>
      rw [upload_dir_err ini c hg]
      exact countPut_get_s3_client ini
    | ok cl =>
      rw [upload_dir_ok ini cl hg]
      simp only [List.countP_append]
      rw [countPut_get_s3_client ini]
      rw [countP_concatMap, countP_concatMap]
      have hz1 : ∀ x ∈ (files.filter (fun f => is_excel_file f.rel)).map
          (fun f => (process_excel_file (dp ++ "/" ++ f.rel) f.content
            (s3_path_for ds (clock 0)) true putOk).countP isPut), x = 0 := by
        intro x hx
        rcases List.mem_map.mp hx with ⟨f, _, rfl⟩
        exact countPut_process_excel_dry _ _ _ _
      have hz2 : ∀ x ∈ (files.filter (fun f => !is_excel_file f.rel)).map
          (fun f => (upload_file_to_s3 (dp ++ "/" ++ f.rel)
            (s3_path_for ds (clock 0)) true f.rel putOk).countP isPut), x = 0 := by
        intro x hx
        rcases List.mem_map.mp hx with ⟨f, _, rfl⟩
        rfl
      rw [List.sum_eq_zero hz1, List.sum_eq_zero hz2]
      rfl

/-- C4 counterexample: the claim says the destination key is always the
prefix followed by the relative path, including names beginning with a
dot; but the code strips leading dots (`lstrip('.')`), so the relative
path `.hidden` yields the key `<prefix>hidden`, not `<prefix>.hidden`. -/
theorem c4_counterexample :
    full_s3_path_file "delivery/dataset=winistry/status=staged/delivery-date=2026-10-12/"
        ".hidden" ≠
      "delivery/dataset=winistry/status=staged/delivery-date=2026-10-12/" ++ ".hidden" := by
  decide

/-- C4 (amended): for every non-spreadsheet file uploaded from a
directory whose relative path does not begin with `.` or `/`, the
destination key equals the key prefix followed by the file's path
relative to the supplied directory; relative paths beginning with `.` or
`/` first have all their leading `.` characters and then all leading `/`
characters removed. -/
theorem c4_plain_file_key (s3_path rel file_path : String) (putOk : String → Bool)
    (h1 : rel.data.head? ≠ some '.') (h2 : rel.data.head? ≠ some '/') :
    full_s3_path_file s3_path rel = s3_path ++ rel
    ∧ (upload_file_to_s3 file_path s3_path false rel putOk).head? =
        some (Ev.uploadFileCall S3_BUCKET_NAME (s3_path ++ rel) file_path) := by
  have hdrop : (rel.data.dropWhile (fun c => c == '.')).dropWhile (fun c => c == '/') =
      rel.data := by
    cases hr : rel.data with
    | nil => rfl
    | cons c t =>
      rw [hr] at h1 h2
      simp only [List.head?_cons, ne_eq, Option.some.injEq] at h1 h2
      have hc1 : (c == '.') = false := beq_eq_false_iff_ne.mpr h1
      have hc2 : (c == '/') = false := beq_eq_false_iff_ne.mpr h2
      rw [List.dropWhile_cons, hc1]
      simp only [Bool.false_eq_true, if_false]
      rw [List.dropWhile_cons, hc2]
      simp only [Bool.false_eq_true, if_false]
  have hkey : full_s3_path_file s3_path rel = s3_path ++ rel := by
    unfold full_s3_path_file
    rw [hdrop]
  refine ⟨hkey, ?_⟩
  simp only [upload_file_to_s3, hkey, Bool.false_eq_true, if_false]
  split <;> rfl

/-- C4 witness: instantiation of `c4_plain_file_key` at a concrete
dot-free relative path. -/
theorem c4_plain_file_key_witness :
    full_s3_path_file "delivery/dataset=winistry/status=staged/delivery-date=2026-10-12/"
        "report.txt" =
      "delivery/dataset=winistry/status=staged/delivery-date=2026-10-12/" ++ "report.txt"
    ∧ (upload_file_to_s3 "/data/report.txt"
        "delivery/dataset=winistry/status=staged/delivery-date=2026-10-12/" false "report.txt"
        (fun _ => true)).head? =
      some (Ev.uploadFileCall S3_BUCKET_NAME
        ("delivery/dataset=winistry/status=staged/delivery-date=2026-10-12/" ++ "report.txt")
        "/data/report.txt") :=
  c4_plain_file_key _ _ _ _ (by decide) (by decide)

/-- C8: whenever the configuration file is missing, its AWS section or
either credential option is missing, or either credential value is empty,
`get_s3_client` logs one descriptive error line and exits with code 1
(`Except.error 1`), so no S3 client is ever constructed. -/
theorem c8_bad_config_exits (ini : Option IniFile)
    (h : ini = none ∨ ∃ cfg, ini = some cfg ∧
      (cfg_get cfg "AWS" "AWS_ACCESS_KEY_ID" = none ∨
       cfg_get cfg "AWS" "AWS_SECRET_ACCESS_KEY" = none ∨
       cfg_get cfg "AWS" "AWS_ACCESS_KEY_ID" = some "" ∨
       cfg_get cfg "AWS" "AWS_SECRET_ACCESS_KEY" = some "")) :
    (get_s3_client ini).2 = Except.error 1
    ∧ ∃ msg i st, (get_s3_client ini).1 = [Ev.logError msg i st] := by
  rcases h with rfl | ⟨cfg, rfl, hbad⟩
  · exact ⟨rfl, _, _, _, rfl⟩
  · simp only [get_s3_client]
    rcases hk : cfg_get cfg "AWS" "AWS_ACCESS_KEY_ID" with _ | k
    · exact ⟨rfl, _, _, _, rfl⟩
    · rcases hs : cfg_get cfg "AWS" "AWS_SECRET_ACCESS_KEY" with _ | s
      · exact ⟨rfl, _, _, _, rfl⟩
      · have hempty : (k == "" || s == "") = true := by
          rcases hbad with hb | hb | hb | hb
          · rw [hk] at hb; cases hb
          · rw [hs] at hb; cases hb
          · rw [hk] at hb
            have : k = "" := by injection hb
            subst this
            rfl
          · rw [hs] at hb
            have : s = "" := by injection hb
            subst this
            simp
        simp only [hempty]
        exact ⟨rfl, _, _, _, rfl⟩

/-- C8 witness: instantiation of `c8_bad_config_exits` at the missing
configuration file. -/
theorem c8_bad_config_exits_witness :
    (get_s3_client none).2 = Except.error 1
    ∧ ∃ msg i st, (get_s3_client none).1 = [Ev.logError msg i st] :=
  c8_bad_config_exits none (Or.inl rfl)

theorem putKeys_append (a b : List Ev) : putKeys (a ++ b) = putKeys a ++ putKeys b := by
  induction a with
  | nil => rfl
  | cons e t ih => cases e <;> simp [putKeys, ih]

theorem putKeys_get_s3_client (ini : Option IniFile) : putKeys (get_s3_client ini).1 = [] := by
  cases ini with
  | none => rfl
  | some cfg =>
    simp only [get_s3_client]
    cases cfg_get cfg "AWS" "AWS_ACCESS_KEY_ID" with
    | none => rfl
    | some k =>
      cases cfg_get cfg "AWS" "AWS_SECRET_ACCESS_KEY" with
      | none => rfl
      | some s => split <;> split <;> rfl

theorem putKeys_concatMap_mem {f : α → List Ev} {l : List α} {k : String}
    (h : k ∈ putKeys (concatMap f l)) : ∃ a ∈ l, k ∈ putKeys (f a) := by
  induction l with
  | nil => cases h
  | cons a t ih =>
    rw [show concatMap f (a :: t) = f a ++ concatMap f t from rfl, putKeys_append] at h
    rcases List.mem_append.mp h with hl | hr
    · exact ⟨a, List.mem_cons_self a t, hl⟩
    · rcases ih hr with ⟨b, hb, hkb⟩
      exact ⟨b, List.mem_cons_of_mem a hb, hkb⟩

theorem putKeys_upload_file (file_path s3_path : String) (dry_run : Bool) (rel : String)
    (putOk : String → Bool) :
    ∀ k ∈ putKeys (upload_file_to_s3 file_path s3_path dry_run rel putOk),
      k = full_s3_path_file s3_path rel := by
  intro k hk
  cases dry_run with
  | true => simp [upload_file_to_s3, putKeys] at hk
  | false =>
    simp only [upload_file_to_s3, Bool.false_eq_true, if_false] at hk
    split at hk <;> simpa [putKeys] using hk

theorem putKeys_upload_csv (buffer s3_path orig sheet : String) (dry_run : Bool)
    (putOk : String → Bool) :
    ∀ k ∈ putKeys (upload_csv_buffer_to_s3 buffer s3_path orig sheet dry_run putOk),
      k = full_s3_path_sheet s3_path orig sheet := by
  intro k hk
  cases dry_run with
  | true => simp [upload_csv_buffer_to_s3, putKeys] at hk
  | false =>
    simp only [upload_csv_buffer_to_s3, Bool.false_eq_true, if_false] at hk
    split at hk <;> simpa [putKeys] using hk

theorem putKeys_process_sheet (file_path s3_path : String) (dry_run : Bool)
    (putOk : String → Bool) (sh : Sheet) :
    ∀ k ∈ putKeys (process_sheet file_path s3_path dry_run putOk sh),
      k = full_s3_path_sheet s3_path (path_name file_path) sh.name := by
  intro k hk
  unfold process_sheet at hk
  split at hk
  · simp [putKeys] at hk
  · exact putKeys_upload_csv _ _ _ _ _ _ k hk

theorem string_append_assoc (a b c : String) : a ++ b ++ c = a ++ (b ++ c) := by
  apply String.ext
  simp [List.append_assoc]

theorem putKeys_process_excel (file_path : String) (content : FileContent) (s3_path : String)
    (dry_run : Bool) (putOk : String → Bool) :
    ∀ k ∈ putKeys (process_excel_file file_path content s3_path dry_run putOk),
      ∃ suf, k = s3_path ++ suf := by
  intro k hk
  cases content with
  | plain => simp [process_excel_file, putKeys] at hk
  | workbook sheets =>
    rcases h : sheets.isEmpty with _ | _
    · simp only [process_excel_file, h, Bool.false_eq_true, if_false, putKeys] at hk
      rcases putKeys_concatMap_mem hk with ⟨sh, _, hksh⟩
      have hfull := putKeys_process_sheet file_path s3_path dry_run putOk sh k hksh
      refine ⟨path_stem (path_name file_path) ++ "_" ++ safe_name sh.name ++ ".csv", ?_⟩
      rw [hfull]
      unfold full_s3_path_sheet
      rw [string_append_assoc, string_append_assoc, string_append_assoc,
        string_append_assoc, string_append_assoc]
    · simp [process_excel_file, h, putKeys] at hk

set_option maxRecDepth 10000

/-- C5 counterexample: the claim says the delivery date is evaluated
exactly once per invocation for `upload-dashboard` as well; but the code
reads the clock inside the mapping loop (line 284), so a run whose clock
advances past midnight between the two mappings makes two `now()` calls
and produces destination keys with two different delivery-date segments
(2026-10-11 for the first mapping, 2026-10-12 for the second). -/
theorem c5_counterexample :
    (upload_dashboard (some cfgOk)
      (fun p =>
        if p = dashPath1 then some (FileContent.workbook [⟨"Sheet1", ⟨["a"], [["1"]]⟩⟩])
        else if p = dashPath2 then some (FileContent.workbook [⟨"Sheet1", ⟨["a"], [["2"]]⟩⟩])
        else none)
      3 false (fun i => if i = 0 then ⟨2026, 10, 11⟩ else ⟨2026, 10, 12⟩)
      (fun _ => true)).nowCalls = 2
    ∧ putKeys (upload_dashboard (some cfgOk)
      (fun p =>
        if p = dashPath1 then some (FileContent.workbook [⟨"Sheet1", ⟨["a"], [["1"]]⟩⟩])
        else if p = dashPath2 then some (FileContent.workbook [⟨"Sheet1", ⟨["a"], [["2"]]⟩⟩])
        else none)
      3 false (fun i => if i = 0 then ⟨2026, 10, 11⟩ else ⟨2026, 10, 12⟩)
      (fun _ => true)).events =
      ["delivery/dataset=winistry/status=staged/delivery-date=2026-10-11/Discover Atlanta KPI Dashboard_Sheet1.csv",
       "delivery/dataset=sparkloft/status=staged/delivery-date=2026-10-12/Discover Atlanta - Monthly Data Report_Sheet1.csv"] := by
  constructor
  · decide
  · decide

/-- C5 (amended): the `upload` command evaluates the delivery date
exactly once per invocation (one `now()` call), so every destination key
it produces extends the single key prefix built from that one reading;
the `upload-dashboard` command instead evaluates the date once per
existing mapping file, so only keys within one mapping's processing are
guaranteed to share a delivery-date segment. -/
theorem c5_date_evaluation (ini : Option IniFile) (cl : S3Client)
    (ds dp : String) (files : List SrcFile) (pr : Nat) (dry : Bool)
    (clock : Nat → PyDate) (putOk : String → Bool) (fs : String → Option FileContent)
    (hok : (get_s3_client ini).2 = Except.ok cl) :
    (upload_dir ini ds dp files pr dry clock putOk).nowCalls = 1
    ∧ (∀ k ∈ putKeys (upload_dir ini ds dp files pr dry clock putOk).events,
        ∃ suf, k = s3_path_for ds (clock 0) ++ suf)
    ∧ (upload_dashboard ini fs pr dry clock putOk).nowCalls =
        (dashMappings.filter (fun m => (fs m.1).isSome)).length := by
  refine ⟨?_, ?_, ?_⟩
  · rw [upload_dir_ok ini cl hok]
  · intro k hk
    rw [upload_dir_ok ini cl hok] at hk
    simp only [putKeys_append, List.mem_append, putKeys_get_s3_client, putKeys,
      List.not_mem_nil, false_or] at hk
    rcases hk with hk | hk
    · rcases putKeys_concatMap_mem hk with ⟨f, _, hkf⟩
      exact putKeys_process_excel _ _ _ _ _ k hkf
    · rcases putKeys_concatMap_mem hk with ⟨f, _, hkf⟩
      have hfull := putKeys_upload_file _ _ _ _ _ k hkf
      exact ⟨_, hfull⟩
  · rw [upload_dashboard_ok ini cl hok fs pr dry clock putOk]
    simp only [dashMappings, List.foldl, List.filter]
    rcases h1 : fs dashPath1 with _ | c1 <;> rcases h2 : fs dashPath2 with _ | c2 <;>
      simp [dash_step, h1, h2]

/-- C5 witness: instantiation of `c5_date_evaluation` at a concrete
run (valid credentials, one plain file, no dashboard files on disk). -/
theorem c5_date_evaluation_witness :
    (upload_dir (some cfgOk) "winistry" "/data" [⟨"report.txt", FileContent.plain⟩] 3 false
      (fun _ => ⟨2026, 10, 12⟩) (fun _ => true)).nowCalls = 1
    ∧ (∀ k ∈ putKeys (upload_dir (some cfgOk) "winistry" "/data"
          [⟨"report.txt", FileContent.plain⟩] 3 false
          (fun _ => ⟨2026, 10, 12⟩) (fun _ => true)).events,
        ∃ suf, k = s3_path_for "winistry" ((fun _ => (⟨2026, 10, 12⟩ : PyDate)) 0) ++ suf)
    ∧ (upload_dashboard (some cfgOk) (fun _ => none) 3 false
        (fun _ => ⟨2026, 10, 12⟩) (fun _ => true)).nowCalls =
      (dashMappings.filter (fun m => ((fun _ => (none : Option FileContent)) m.1).isSome)).length :=
  c5_date_evaluation (some cfgOk) ⟨"us-east-1", "AKIA123", "SECRET456"⟩ "winistry" "/data"
    [⟨"report.txt", FileContent.plain⟩] 3 false (fun _ => ⟨2026, 10, 12⟩) (fun _ => true)
    (fun _ => none) rfl

/-- C6: a workbook sheet with at least one data row is uploaded under the
key `<prefix><base-filename>_<sanitized-sheet-name>.csv`, where
sanitization replaces exactly the forward slash, backslash and space
characters by underscore and leaves every other character unchanged, and
the uploaded CSV content is the `to_csv(index=False)` rendering: header
row included, no row index column. -/
theorem c6_sheet_key_and_content (file_path s3_path : String) (putOk : String → Bool)
    (sh : Sheet) (h : sh.df.rows.isEmpty = false) :
    (process_sheet file_path s3_path false putOk sh).head? =
      some (Ev.uploadFileobjCall S3_BUCKET_NAME
        (full_s3_path_sheet s3_path (path_name file_path) sh.name) (to_csv sh.df false))
    ∧ (∀ sp o n : String,
        full_s3_path_sheet sp o n = sp ++ path_stem o ++ "_" ++ safe_name n ++ ".csv")
    ∧ (∀ s : String, (safe_name s).data =
        s.data.map (fun c => if c = '/' ∨ c = backslash ∨ c = ' ' then '_' else c))
    ∧ to_csv sh.df false =
        String.intercalate "\n" (String.intercalate "," sh.df.columns ::
          sh.df.rows.map (fun r => String.intercalate "," r)) ++ "\n" := by
  refine ⟨?_, fun sp o n => rfl, safe_name_eq_map, rfl⟩
  simp only [process_sheet, h, Bool.false_eq_true, if_false, upload_csv_buffer_to_s3]
  split <;> rfl

/-- C6 witness: instantiation of `c6_sheet_key_and_content` at workbook
`q.xlsx` with non-empty sheet `Jan Data`: one buffer upload with key
`p/q_Jan_Data.csv` and CSV content `a\n1\n`. -/
theorem c6_sheet_key_and_content_witness :
    (process_sheet "q.xlsx" "p/" false (fun _ => true)
      ⟨"Jan Data", ⟨["a"], [["1"]]⟩⟩).head? =
      some (Ev.uploadFileobjCall S3_BUCKET_NAME "p/q_Jan_Data.csv" "a\n1\n") :=
  (c6_sheet_key_and_content "q.xlsx" "p/" (fun _ => true)
    ⟨"Jan Data", ⟨["a"], [["1"]]⟩⟩ (by decide)).1

/-- C7: with valid credentials, a put failure on any individual upload
(file or sheet buffer) is caught and logged as an error with the caught
exception and a captured stack trace, the uploader returns normally, the
run never exits with a non-zero code because of it, and every other
dispatched file is still uploaded (its put call appears in the trace no
matter which keys fail). -/
theorem c7_put_failure_caught (ini : Option IniFile) (cl : S3Client)
    (ds dp : String) (files : List SrcFile) (pr : Nat) (clock : Nat → PyDate)
    (putOk : String → Bool) (hok : (get_s3_client ini).2 = Except.ok cl) :
    (upload_dir ini ds dp files pr false clock putOk).exitCode = none
    ∧ (∀ file_path s3_path rel : String, putOk (full_s3_path_file s3_path rel) = false →
        upload_file_to_s3 file_path s3_path false rel putOk =
          [Ev.uploadFileCall S3_BUCKET_NAME (full_s3_path_file s3_path rel) file_path,
           Ev.logError ("Error uploading " ++ file_path) true true])
    ∧ (∀ buffer s3_path orig sheet : String,
        putOk (full_s3_path_sheet s3_path orig sheet) = false →
        upload_csv_buffer_to_s3 buffer s3_path orig sheet false putOk =
          [Ev.uploadFileobjCall S3_BUCKET_NAME (full_s3_path_sheet s3_path orig sheet) buffer,
           Ev.logError ("Error uploading sheet " ++ sheet ++ " from " ++ orig) true true])
    ∧ (∀ f ∈ files.filter (fun f => !is_excel_file f.rel),
        Ev.uploadFileCall S3_BUCKET_NAME
            (full_s3_path_file (s3_path_for ds (clock 0)) f.rel) (dp ++ "/" ++ f.rel)
          ∈ (upload_dir ini ds dp files pr false clock putOk).events) := by
  refine ⟨?_, ?_, ?_, ?_⟩
  · rw [upload_dir_ok ini cl hok]
  · intro fp sp rel hfail
    simp only [upload_file_to_s3, Bool.false_eq_true, if_false, hfail]
  · intro buffer sp orig sheet hfail
    simp only [upload_csv_buffer_to_s3, Bool.false_eq_true, if_false, hfail]
  · intro f hf
    rw [upload_dir_ok ini cl hok]
    refine List.mem_append.mpr (Or.inr ?_)
    refine mem_concatMap f hf ?_
    simp only [upload_file_to_s3, Bool.false_eq_true, if_false]
    split
    · exact List.mem_cons_self _ _
    · exact List.mem_cons_self _ _

/-- C7 witness: instantiation of `c7_put_failure_caught` at a run where
every put call fails: the run still exits 0 and the file's put attempt is
in the trace. -/
theorem c7_put_failure_caught_witness :
    (upload_dir (some cfgOk) "winistry" "/data" [⟨"a.txt", FileContent.plain⟩] 3 false
      (fun _ => ⟨2026, 10, 12⟩) (fun _ => false)).exitCode = none
    ∧ Ev.uploadFileCall S3_BUCKET_NAME
        (full_s3_path_file (s3_path_for "winistry" ⟨2026, 10, 12⟩) "a.txt")
        ("/data" ++ "/" ++ "a.txt")
      ∈ (upload_dir (some cfgOk) "winistry" "/data" [⟨"a.txt", FileContent.plain⟩] 3 false
          (fun _ => ⟨2026, 10, 12⟩) (fun _ => false)).events :=
  ⟨(c7_put_failure_caught (some cfgOk) ⟨"us-east-1", "AKIA123", "SECRET456"⟩ "winistry" "/data"
      [⟨"a.txt", FileContent.plain⟩] 3 (fun _ => ⟨2026, 10, 12⟩) (fun _ => false) rfl).1,
   (c7_put_failure_caught (some cfgOk) ⟨"us-east-1", "AKIA123", "SECRET456"⟩ "winistry" "/data"
      [⟨"a.txt", FileContent.plain⟩] 3 (fun _ => ⟨2026, 10, 12⟩) (fun _ => false) rfl).2.2.2
     ⟨"a.txt", FileContent.plain⟩ (by decide)⟩

theorem countFilePut_upload_file (file_path s3_path rel : String) (putOk : String → Bool) :
    (upload_file_to_s3 file_path s3_path false rel putOk).countP isFilePut = 1 := by
  simp only [upload_file_to_s3, Bool.false_eq_true, if_false]
  split <;> rfl

theorem countBufPut_upload_file (file_path s3_path rel : String) (putOk : String → Bool) :
    (upload_file_to_s3 file_path s3_path false rel putOk).countP isBufPut = 0 := by
  simp only [upload_file_to_s3, Bool.false_eq_true, if_false]
  split <;> rfl

theorem countBufPut_upload_csv (buffer s3_path orig sheet : String) (putOk : String → Bool) :
    (upload_csv_buffer_to_s3 buffer s3_path orig sheet false putOk).countP isBufPut = 1 := by
  simp only [upload_csv_buffer_to_s3, Bool.false_eq_true, if_false]
  split <;> rfl

theorem countFilePut_upload_csv (buffer s3_path orig sheet : String) (putOk : String → Bool) :
    (upload_csv_buffer_to_s3 buffer s3_path orig sheet false putOk).countP isFilePut = 0 := by
  simp only [upload_csv_buffer_to_s3, Bool.false_eq_true, if_false]
  split <;> rfl

theorem countBufPut_process_sheet (file_path s3_path : String) (putOk : String → Bool)
    (sh : Sheet) :
    (process_sheet file_path s3_path false putOk sh).countP isBufPut =
      if sh.df.rows.isEmpty = true then 0 else 1 := by
  rcases h : sh.df.rows.isEmpty with _ | _
  · simp only [process_sheet, h, Bool.false_eq_true, if_false]
    exact countBufPut_upload_csv _ _ _ _ _
  · simp [process_sheet, h, List.countP_cons, isBufPut]

theorem countFilePut_process_sheet (file_path s3_path : String) (putOk : String → Bool)
    (sh : Sheet) :
    (process_sheet file_path s3_path false putOk sh).countP isFilePut = 0 := by
  rcases h : sh.df.rows.isEmpty with _ | _
  · simp only [process_sheet, h, Bool.false_eq_true, if_false]
    exact countFilePut_upload_csv _ _ _ _ _
  · simp [process_sheet, h, List.countP_cons, isFilePut]

theorem sum_sheet_counts (sheets : List Sheet) :
    (sheets.map (fun sh => if sh.df.rows.isEmpty = true then 0 else 1)).sum =
      (sheets.filter (fun s => !s.df.rows.isEmpty)).length := by
  induction sheets with
  | nil => rfl
  | cons a t ih =>
    rcases h : a.df.rows.isEmpty with _ | _ <;>
      simp only [List.map_cons, List.sum_cons, List.filter_cons, h, Bool.not_false,
        Bool.not_true, Bool.false_eq_true, if_false, eq_self_iff_true, if_true,
        List.length_cons, ih] <;>
      omega

theorem countBufPut_process_excel (file_path : String) (sheets : List Sheet)
    (s3_path : String) (putOk : String → Bool) :
    (process_excel_file file_path (FileContent.workbook sheets) s3_path false putOk).countP
        isBufPut =
      (sheets.filter (fun s => !s.df.rows.isEmpty)).length := by
  rcases h : sheets.isEmpty with _ | _
  · simp only [process_excel_file, h, Bool.false_eq_true, if_false]
    rw [List.countP_cons, List.countP_cons, countP_concatMap]
    have hmap : sheets.map
        (fun sh => (process_sheet file_path s3_path false putOk sh).countP isBufPut) =
        sheets.map (fun sh => if sh.df.rows.isEmpty = true then 0 else 1) :=
      List.map_congr_left (fun sh _ => countBufPut_process_sheet file_path s3_path putOk sh)
    rw [hmap, sum_sheet_counts]
    rfl
  · rw [List.isEmpty_iff.mp h]
    rfl

theorem countFilePut_process_excel (file_path : String) (content : FileContent)
    (s3_path : String) (putOk : String → Bool) :
    (process_excel_file file_path content s3_path false putOk).countP isFilePut = 0 := by
  cases content with
  | plain => rfl
  | workbook sheets =>
    rcases h : sheets.isEmpty with _ | _
    · simp only [process_excel_file, h, Bool.false_eq_true, if_false]
      rw [List.countP_cons, List.countP_cons, countP_concatMap]
      have hz : ∀ x ∈ sheets.map
          (fun sh => (process_sheet file_path s3_path false putOk sh).countP isFilePut),
          x = 0 := by
        intro x hx
        rcases List.mem_map.mp hx with ⟨sh, _, rfl⟩
        exact countFilePut_process_sheet file_path s3_path putOk sh
      rw [List.sum_eq_zero hz]
      rfl
    · rw [List.isEmpty_iff.mp h]
      rfl

theorem get_s3_client_no_puts (ini : Option IniFile) :
    ∀ e ∈ (get_s3_client ini).1, isPut e = false := by
  intro e he
  cases ini with
  | none =>
    rw [List.mem_singleton.mp he]
    rfl
  | some cfg =>
    simp only [get_s3_client] at he
    rcases hk : cfg_get cfg "AWS" "AWS_ACCESS_KEY_ID" with _ | k
    · simp only [hk] at he
      rw [List.mem_singleton.mp he]
      rfl
    · rcases hs : cfg_get cfg "AWS" "AWS_SECRET_ACCESS_KEY" with _ | s
      · simp only [hk, hs] at he
        rw [List.mem_singleton.mp he]
        rfl
      · simp only [hk, hs] at he
        split at he <;> rw [List.mem_singleton.mp he] <;> rfl

theorem countFilePut_get_s3_client (ini : Option IniFile) :
    (get_s3_client ini).1.countP isFilePut = 0 :=
  List.countP_eq_zero.mpr (fun e he hp => by
    have h := get_s3_client_no_puts ini e he
    simp [isPut, hp] at h)

theorem countBufPut_get_s3_client (ini : Option IniFile) :
    (get_s3_client ini).1.countP isBufPut = 0 :=
  List.countP_eq_zero.mpr (fun e he hp => by
    have h := get_s3_client_no_puts ini e he
    simp [isPut, hp] at h)

theorem sum_map_const_one {α} (l : List α) (f : α → Nat) (h : ∀ a ∈ l, f a = 1) :
    (l.map f).sum = l.length := by
  induction l with
  | nil => rfl
  | cons a t ih =>
    simp only [List.map_cons, List.sum_cons, h a (List.mem_cons_self a t), List.length_cons]
    rw [ih (fun b hb => h b (List.mem_cons_of_mem a hb)), Nat.add_comm]

/-- C2: with valid credentials, one directory run whose spreadsheet files
are all readable workbooks issues exactly one plain-file put call per
non-spreadsheet file and one sheet put call per non-empty sheet of each
spreadsheet (counting attempts, whether or not each put succeeds); a
sheet with zero data rows produces exactly one warning log line and no
upload. -/
theorem c2_upload_counts (ini : Option IniFile) (cl : S3Client) (ds dp : String)
    (files : List SrcFile) (pr : Nat) (clock : Nat → PyDate) (putOk : String → Bool)
    (hok : (get_s3_client ini).2 = Except.ok cl)
    (hwb : ∀ f ∈ files, is_excel_file f.rel = true → isWorkbook f.content = true) :
    (upload_dir ini ds dp files pr false clock putOk).events.countP isFilePut =
      (files.filter (fun f => !is_excel_file f.rel)).length
    ∧ (upload_dir ini ds dp files pr false clock putOk).events.countP isBufPut =
      ((files.filter (fun f => is_excel_file f.rel)).map
        (fun f => nonEmptySheetCount f.content)).sum
    ∧ (∀ (file_path s3_path : String) (sh : Sheet), sh.df.rows.isEmpty = true →
        process_sheet file_path s3_path false putOk sh =
          [Ev.logWarning ("Sheet " ++ sh.name ++ " in " ++ file_path ++
            " is empty. Skipping.")]) := by
  refine ⟨?_, ?_, ?_⟩
  · rw [upload_dir_ok ini cl hok]
    show (((get_s3_client ini).1 ++ _ ++ _ ++ _).countP isFilePut = _)
    rw [List.countP_append, List.countP_append, List.countP_append,
      countFilePut_get_s3_client, countP_concatMap, countP_concatMap]
    have hz : ∀ x ∈ (files.filter (fun f => is_excel_file f.rel)).map
        (fun f => (process_excel_file (dp ++ "/" ++ f.rel) f.content
          (s3_path_for ds (clock 0)) false putOk).countP isFilePut), x = 0 := by
      intro x hx
      rcases List.mem_map.mp hx with ⟨f, _, rfl⟩
      exact countFilePut_process_excel _ _ _ _
    rw [List.sum_eq_zero hz]
    rw [sum_map_const_one _ _ (fun f _ => countFilePut_upload_file _ _ _ _)]
    simp [List.countP_cons, isFilePut]
  · rw [upload_dir_ok ini cl hok]
    show (((get_s3_client ini).1 ++ _ ++ _ ++ _).countP isBufPut = _)
    rw [List.countP_append, List.countP_append, List.countP_append,
      countBufPut_get_s3_client, countP_concatMap, countP_concatMap]
    have hz : ∀ x ∈ (files.filter (fun f => !is_excel_file f.rel)).map
        (fun f => (upload_file_to_s3 (dp ++ "/" ++ f.rel)
          (s3_path_for ds (clock 0)) false f.rel putOk).countP isBufPut), x = 0 := by
      intro x hx
      rcases List.mem_map.mp hx with ⟨f, _, rfl⟩
      exact countBufPut_upload_file _ _ _ _
    rw [List.sum_eq_zero hz]
    have hmap : (files.filter (fun f => is_excel_file f.rel)).map
        (fun f => (process_excel_file (dp ++ "/" ++ f.rel) f.content
          (s3_path_for ds (clock 0)) false putOk).countP isBufPut) =
        (files.filter (fun f => is_excel_file f.rel)).map
          (fun f => nonEmptySheetCount f.content) := by
      refine List.map_congr_left (fun f hf => ?_)
      have hex : is_excel_file f.rel = true := (List.mem_filter.mp hf).2
      have hw := hwb f (List.mem_filter.mp hf).1 hex
      cases hc : f.content with
      | plain => rw [hc] at hw; exact absurd hw Bool.false_ne_true
      | workbook sheets => exact countBufPut_process_excel _ _ _ _
    rw [hmap]
    simp [List.countP_cons, isBufPut]
  · intro file_path s3_path sh h
    simp [process_sheet, h]

/-- C2 witness: instantiation of `c2_upload_counts` at a directory with
one plain file and one workbook holding one non-empty and one empty
sheet: one plain put, one sheet put, and the empty sheet yields only a
warning. -/
theorem c2_upload_counts_witness :
    (upload_dir (some cfgOk) "winistry" "/data" sampleFiles 3 false
      (fun _ => ⟨2026, 10, 12⟩) (fun _ => true)).events.countP isFilePut =
      (sampleFiles.filter (fun f => !is_excel_file f.rel)).length
    ∧ (upload_dir (some cfgOk) "winistry" "/data" sampleFiles 3 false
      (fun _ => ⟨2026, 10, 12⟩) (fun _ => true)).events.countP isBufPut =
      ((sampleFiles.filter (fun f => is_excel_file f.rel)).map
        (fun f => nonEmptySheetCount f.content)).sum
    ∧ (∀ (file_path s3_path : String) (sh : Sheet), sh.df.rows.isEmpty = true →
        process_sheet file_path s3_path false (fun _ => true) sh =
          [Ev.logWarning ("Sheet " ++ sh.name ++ " in " ++ file_path ++
            " is empty. Skipping.")]) :=
  c2_upload_counts (some cfgOk) ⟨"us-east-1", "AKIA123", "SECRET456"⟩ "winistry" "/data"
    sampleFiles 3 (fun _ => ⟨2026, 10, 12⟩) (fun _ => true) rfl (by decide)

theorem data_mk (l : List Char) : (String.mk l).data = l := rfl

theorem digitChar_ne_slash (n : Nat) : (digitChar n == '/') = false := by
  have h : n % 10 = 0 ∨ n % 10 = 1 ∨ n % 10 = 2 ∨ n % 10 = 3 ∨ n % 10 = 4 ∨ n % 10 = 5 ∨
      n % 10 = 6 ∨ n % 10 = 7 ∨ n % 10 = 8 ∨ n % 10 = 9 := by omega
  unfold digitChar
  rcases h with h | h | h | h | h | h | h | h | h | h <;> rw [h] <;> decide

theorem natChars_ne_slash (fuel : Nat) : ∀ (n : Nat), ∀ c ∈ natChars fuel n,
    (c == '/') = false := by
  induction fuel with
  | zero =>
    intro n c hc
    cases hc
  | succ f ih =>
    intro n c hc
    simp only [natChars] at hc
    split at hc
    · rw [List.mem_singleton.mp hc]
      exact digitChar_ne_slash n
    · rcases List.mem_append.mp hc with h1 | h2
      · exact ih _ c h1
      · rw [List.mem_singleton.mp h2]
        exact digitChar_ne_slash n

theorem pad2_ne_slash (n : Nat) : ∀ c ∈ pad2 n, (c == '/') = false := by
  intro c hc
  unfold pad2 at hc
  split at hc
  · rcases List.mem_cons.mp hc with rfl | h
    · decide
    · exact natChars_ne_slash _ _ c h
  · exact natChars_ne_slash _ _ c hc

theorem pad4_ne_slash (n : Nat) : ∀ c ∈ pad4 n, (c == '/') = false := by
  intro c hc
  unfold pad4 at hc
  rcases List.mem_append.mp hc with h | h
  · split at h
    · simp only [List.mem_cons, List.not_mem_nil, or_false] at h
      rcases h with rfl | rfl | rfl <;> decide
    · split at h
      · simp only [List.mem_cons, List.not_mem_nil, or_false] at h
        rcases h with rfl | rfl <;> decide
      · split at h
        · rw [List.mem_singleton.mp h]
          decide
        · cases h
  · exact natChars_ne_slash _ _ c h

theorem strftime_ne_slash (d : PyDate) : ∀ c ∈ (strftime_date d).data,
    (c == '/') = false := by
  intro c hc
  simp only [strftime_date, data_mk] at hc
  rcases List.mem_append.mp hc with h | h
  · exact pad4_ne_slash _ c h
  · rcases List.mem_cons.mp h with rfl | h
    · decide
    · rcases List.mem_append.mp h with h2 | h2
      · exact pad2_ne_slash _ c h2
      · rcases List.mem_cons.mp h2 with rfl | h3
        · decide
        · exact pad2_ne_slash _ c h3

theorem nds_cons_cons (a b : Char) (t : List Char) :
    noDoubleSlash (a :: b :: t) = (!(a == '/' && b == '/') && noDoubleSlash (b :: t)) := rfl

theorem nds_of_forall (l : List Char) (h : ∀ c ∈ l, (c == '/') = false) :
    noDoubleSlash l = true := by
  induction l with
  | nil => rfl
  | cons a t ih =>
    cases t with
    | nil => rfl
    | cons b t2 =>
      rw [nds_cons_cons, h a (List.mem_cons_self _ _)]
      simp only [Bool.false_and, Bool.not_false, Bool.true_and]
      exact ih (fun c hc => h c (List.mem_cons_of_mem a hc))

theorem mem_of_getLast? {l : List α} {a : α} (h : l.getLast? = some a) : a ∈ l := by
  induction l with
  | nil => cases h
  | cons x t ih =>
    cases t with
    | nil =>
      rw [List.getLast?_singleton] at h
      rw [Option.some.inj h]
      exact List.mem_cons_self _ _
    | cons y t2 =>
      rw [List.getLast?_cons_cons] at h
      exact List.mem_cons_of_mem x (ih h)

theorem nds_append (xs ys : List Char) (hx : noDoubleSlash xs = true)
    (hb : ∀ a b : Char, xs.getLast? = some a → ys.head? = some b →
      (!(a == '/' && b == '/')) = true) :
    noDoubleSlash (xs ++ ys) = noDoubleSlash ys := by
  induction xs with
  | nil => rfl
  | cons a t ih =>
    cases t with
    | nil =>
      cases ys with
      | nil => rfl
      | cons b ys2 =>
        rw [show ([a] ++ b :: ys2) = a :: b :: ys2 from rfl, nds_cons_cons]
        rw [hb a b rfl rfl, Bool.true_and]
    | cons b t2 =>
      rw [show ((a :: b :: t2) ++ ys) = a :: b :: (t2 ++ ys) from rfl, nds_cons_cons]
      rw [nds_cons_cons] at hx
      rw [Bool.and_eq_true] at hx
      obtain ⟨h1, h2⟩ := hx
      rw [h1, Bool.true_and]
      exact ih h2 (fun x y hxl hyl =>
        hb x y (by rw [List.getLast?_cons_cons]; exact hxl) hyl)

theorem nds_boundary_left {a : Char} (ha : (a == '/') = false) (b : Char) :
    (!(a == '/' && b == '/')) = true := by
  rw [ha, Bool.false_and, Bool.not_false]

theorem getLast?_append_right {l1 l2 : List α} {a : α} (h : l2.getLast? = some a) :
    (l1 ++ l2).getLast? = some a := by
  rw [List.getLast?_append, h]
  rfl

theorem data_s3_path_for (ds : String) (d : PyDate) :
    (s3_path_for ds d).data =
      "delivery/dataset=".data ++ (ds.data ++ ("/status=staged/delivery-date=".data ++
        ((strftime_date d).data ++ "/".data))) := by
  simp [s3_path_for, List.append_assoc]

theorem nds_s3_path (ds : String) (d : PyDate)
    (hds : ∀ c ∈ ds.data, (c == '/') = false) :
    noDoubleSlash (s3_path_for ds d).data = true := by
  rw [data_s3_path_for]
  rw [nds_append _ _ (by decide) ?hb1]
  case hb1 =>
    intro a b ha _
    have hA : ("delivery/dataset=".data).getLast? = some '=' := by decide
    rw [hA] at ha
    rw [← Option.some.inj ha]
    exact nds_boundary_left (by decide) b
  rw [nds_append _ _ (nds_of_forall _ hds) ?hb2]
  case hb2 =>
    intro a b ha _
    exact nds_boundary_left (hds a (mem_of_getLast? ha)) b
  rw [nds_append _ _ (by decide) ?hb3]
  case hb3 =>
    intro a b ha _
    have hB : ("/status=staged/delivery-date=".data).getLast? = some '=' := by decide
    rw [hB] at ha
    rw [← Option.some.inj ha]
    exact nds_boundary_left (by decide) b
  rw [nds_append _ _ (nds_of_forall _ (strftime_ne_slash d)) ?hb4]
  case hb4 =>
    intro a b ha _
    exact nds_boundary_left (strftime_ne_slash d a (mem_of_getLast? ha)) b
  rfl

/-- C1: for each dataset in the enumerated pair and any invocation date,
the computed destination key prefix is exactly
`delivery/dataset=<dataset>/status=staged/delivery-date=<YYYY-MM-DD>/`:
its final character is the single trailing slash and no two adjacent
characters of the whole prefix are slashes. -/
theorem c1_key_prefix (ds : String) (hds : ds = "winistry" ∨ ds = "sparkloft")
    (y m dd : Nat) :
    s3_path_for ds ⟨y, m, dd⟩ =
      "delivery/dataset=" ++ ds ++ "/status=staged/delivery-date=" ++
        strftime_date ⟨y, m, dd⟩ ++ "/"
    ∧ noDoubleSlash (s3_path_for ds ⟨y, m, dd⟩).data = true
    ∧ (s3_path_for ds ⟨y, m, dd⟩).data.getLast? = some '/' := by
  refine ⟨rfl, ?_, ?_⟩
  · refine nds_s3_path ds _ ?_
    rcases hds with rfl | rfl <;> decide
  · rw [data_s3_path_for]
    exact getLast?_append_right (getLast?_append_right (getLast?_append_right
      (getLast?_append_right (by decide))))

/-- C1 witness: instantiation of `c1_key_prefix` at dataset `winistry`
and date 2026-10-12. -/
theorem c1_key_prefix_witness :
    s3_path_for "winistry" ⟨2026, 10, 12⟩ =
      "delivery/dataset=" ++ "winistry" ++ "/status=staged/delivery-date=" ++
        strftime_date ⟨2026, 10, 12⟩ ++ "/"
    ∧ noDoubleSlash (s3_path_for "winistry" ⟨2026, 10, 12⟩).data = true
    ∧ (s3_path_for "winistry" ⟨2026, 10, 12⟩).data.getLast? = some '/' :=
  c1_key_prefix "winistry" (Or.inl rfl) 2026 10 12
